import Mathlib

/-!
Shallow embedding of `src/app.py` (a single-file Streamlit application that
uploads a judgement PDF, extracts its text, optionally summarizes it through
the Gemini SDK, and lets the user fill in structured metadata).

The application is a script re-executed top to bottom on every user
interaction ("render pass").  We embed each state-mutating block of the
script as a pure function from the session state (plus the externally
determined inputs of that pass: widget values, SDK call outcomes) to the new
session state.  External effects (the PDF library, the remote model call)
are modeled by explicit outcome parameters, mirroring the try/except
structure of the source.

Python strings are modeled as `List Char` (Python `len` is `List.length`,
slicing `s[:n]` is `List.take n`).  Python `dict.get(key, default)` returns
the default only when the key is MISSING, not when it is present with value
`None`; where this distinction is load-bearing (the date-valued keys of
`case_details` and `timeline`, see C3) we model a dict entry as
`Option (Option Date)`: the outer `Option` is key presence, the inner one is
the stored value.  Calendar dates are modeled as `Nat` (all the code needs
is their total order and equality).
-/

namespace App

/-- Calendar dates, abstracted to their total order. -/
abbrev Date := Nat

/-- Python strings as sequences of characters. -/
abbrev Text := List Char

/-- The `case_details` dict (initialized at `app.py` line 16).  The four
free-text fields and `citations` are always-present string keys and are
modeled plainly; `judgement_date` is date-valued and read back through
`dict.get`, so its key presence is modeled explicitly. -/
structure CaseDetails where
  name : String
  number : String
  court : String
  judges : String
  judgement_date : Option (Option Date)
  citations : String
deriving DecidableEq, Repr

/-- The `timeline` dict (initialized at `app.py` line 17).  The date-valued
keys are modeled with explicit key presence because line 302 reads
`decision_date` through `dict.get` with a non-`None` default. -/
structure Timeline where
  filing_date : Option (Option Date)
  decision_date : Option (Option Date)
  other_key_dates : Option (List Date)
deriving DecidableEq, Repr

/-- One element of the `hearings` list.  Line 332 defends against entries
that are not dicts (`malformed`) and against dicts whose `date` key is
missing or `None`; line 339 reads `summary` through `dict.get`, so both
fields of a `record` are optional. -/
inductive HEntry where
  | malformed
  | record (date : Option Date) (summary : Option String)
deriving DecidableEq, Repr

/-- The session store (`st.session_state`), with exactly the keys
initialized at `app.py` lines 15-25. -/
structure SessionState where
  case_details : CaseDetails
  timeline : Timeline
  hearings : List HEntry
  pdf_text : Option Text
  summary : Option String
  gemini_configured : Bool
  gemini_error : Option String
  user_gemini_key : String
  uploaded_file_id : Option Nat
deriving DecidableEq, Repr

/-- `case_details` default (line 16): every key present, dates `None`. -/
def initCaseDetails : CaseDetails :=
  { name := "", number := "", court := "", judges := "",
    judgement_date := some none, citations := "" }

/-- `timeline` default (line 17): every key present, dates `None`. -/
def initTimeline : Timeline :=
  { filing_date := some none, decision_date := some none, other_key_dates := some [] }

/-- `default_session_state` (lines 15-25). -/
def default_session_state : SessionState :=
  { case_details := initCaseDetails, timeline := initTimeline, hearings := [],
    pdf_text := none, summary := none, gemini_configured := false,
    gemini_error := none, user_gemini_key := "", uploaded_file_id := none }

/-- Python `d.get(key, dflt)`: the default fires only when the key is
missing, never when it is present with value `None`. -/
def dictGetD {α : Type} (entry : Option α) (dflt : α) : α :=
  match entry with
  | some v => v
  | none => dflt

/-- Python truthiness of an optional string: `None` and `""` are falsy. -/
def textTruthy : Option Text → Bool
  | none => false
  | some t => !t.isEmpty

/-- The `on_change` callback of the file uploader (lines 109-115): when the
widget value becomes `None` (file removed), reset `pdf_text`, `summary` and
`uploaded_file_id`; otherwise do nothing. -/
def fileUploaderOnChange (s : SessionState) (widgetFile : Option Nat) : SessionState :=
  if widgetFile = none then
    { s with pdf_text := none, summary := none, uploaded_file_id := none }
  else s

/-- The PDF-processing block (lines 215-229), for a render pass where a file
with identity `fid` is present.  `extractResult` is the value returned by
`extract_text_from_pdf` (lines 120-132): the concatenated page text, or
`none` when the library raised and the except-branch returned `None`.
Returns the new state and whether an extraction attempt was made. -/
def processUploadedFile (s : SessionState) (fid : Nat) (extractResult : Option Text) :
    SessionState × Bool :=
  if s.pdf_text = none ∨ some fid ≠ s.uploaded_file_id then
    ({ s with pdf_text := extractResult, summary := none, uploaded_file_id := some fid }, true)
  else
    (s, false)

/-- Outcome of a `genai.configure` / `GenerativeModel` initialization call
(the body of the try at lines 70-78 or 87-90). -/
inductive ConfigOutcome where
  | ok
  | fail (msg : String)
deriving DecidableEq, Repr

/-- The credential-resolution and configuration block (lines 51-99).
`hasKey` is whether `api_key_to_use` ended up non-`None` (a secrets key, or
a non-empty user key; lines 55-62).  With no key, line 65 forces
`gemini_configured := false`.  The first branch (line 69) attempts
configuration only when a key is available, the flag is down and no prior
error is stored; the second branch (line 86) re-derives the model handle
when already configured, and on failure clears the flag and stores the
error; the final branch (line 98) merely displays the stored error.
Returns (new state, whether the line-69 configuration attempt ran, whether
`gemini_model` is non-`None` at the end of the block). -/
def configRender (s : SessionState) (hasKey : Bool) (outcome : ConfigOutcome) :
    SessionState × Bool × Bool :=
  let s0 := if hasKey = true then s else { s with gemini_configured := false }
  if hasKey = true ∧ s0.gemini_configured = false ∧ s0.gemini_error = none then
    match outcome with
    | ConfigOutcome.ok =>
        ({ s0 with gemini_configured := true, gemini_error := none }, true, true)
    | ConfigOutcome.fail m =>
        ({ s0 with gemini_configured := false, gemini_error := some m }, true, false)
  else if s0.gemini_configured = true ∧ hasKey = true then
    match outcome with
    | ConfigOutcome.ok => (s0, false, true)
    | ConfigOutcome.fail m =>
        ({ s0 with gemini_configured := false, gemini_error := some m }, false, false)
  else
    (s0, false, false)

/-- Outcome of `model.generate_content` (lines 179-199): a response with
parts (`ok` carries `response.text`), a response with no parts (`blocked`,
lines 188-199), or a raised exception (`err`, lines 201-208). -/
inductive GenOutcome where
  | ok (text : String)
  | blocked (reason : String)
  | err (msg : String)
deriving DecidableEq, Repr

/-- Character cap on the text embedded in the prompt (line 147). -/
def max_chars : Nat := 100000

/-- The fixed prompt template text before the embedded document text
(lines 153-164 of the f-string, up to the interpolation point). -/
def promptHead : Text :=
  ("\n    Please provide a concise executive summary of the following legal judgement text. Focus specifically on:\n    1.  The primary legal question(s) or issue(s) the court addressed.\n    2.  The court\x27s main conclusion or holding on those issues.\n    3.  The core legal reasoning or principles applied by the court to reach the conclusion.\n    4.  The final disposition or outcome of the case (e.g., affirmed, reversed, remanded).\n\n    Keep the summary objective, factual, and suitable for a legal professional who needs a quick understanding of the case\x27s essence. Avoid opinions or interpretations not explicitly stated in the text. Use clear and precise legal language where appropriate. Aim for 3-5 paragraphs.\n\n    Text to summarize:\n    ---\n    ").data

/-- The fixed prompt template text after the embedded document text
(lines 164-167 of the f-string). -/
def promptTail : Text :=
  ("\n    ---\n    Summary:\n    ").data

/-- Result of one call of `summarize_with_gemini` (lines 134-208): the
returned value and the user-visible signals the call emitted.  `sentPrompt`
is the prompt handed to `model.generate_content`, or `none` when the call
returned before any request was sent. -/
structure SumResult where
  result : Option String
  warnNotConfigured : Bool
  warnShort : Bool
  infoTruncated : Bool
  sentPrompt : Option Text
deriving DecidableEq, Repr

/-- `summarize_with_gemini(text_to_summarize, model)` (lines 134-208).
`configured` is `st.session_state.gemini_configured`, `hasModel` is whether
the `model` argument is non-`None`, `text` is `text_to_summarize`, and
`outcome` is what the remote call did (unused when no request is sent).
Line 136 rejects an unconfigured client; line 141 rejects falsy text or
text shorter than 50 characters; lines 147-150 truncate to `max_chars` and
emit an info banner when truncation happened; lines 179-208 map the remote
outcome to the returned value, catching every exception. -/
def summarize_with_gemini (configured hasModel : Bool) (text : Option Text)
    (outcome : GenOutcome) : SumResult :=
  if configured = false ∨ hasModel = false then
    { result := none, warnNotConfigured := true, warnShort := false,
      infoTruncated := false, sentPrompt := none }
  else if textTruthy text = false ∨ (text.getD []).length < 50 then
    { result := none, warnNotConfigured := false, warnShort := true,
      infoTruncated := false, sentPrompt := none }
  else
    let t := text.getD []
    let prompt := promptHead ++ t.take max_chars ++ promptTail
    match outcome with
    | GenOutcome.ok r =>
        { result := some r, warnNotConfigured := false, warnShort := false,
          infoTruncated := decide (max_chars < t.length), sentPrompt := some prompt }
    | GenOutcome.blocked _ =>
        { result := none, warnNotConfigured := false, warnShort := false,
          infoTruncated := decide (max_chars < t.length), sentPrompt := some prompt }
    | GenOutcome.err _ =>
        { result := none, warnNotConfigured := false, warnShort := false,
          infoTruncated := decide (max_chars < t.length), sentPrompt := some prompt }

/-- The "Generate Summary with Gemini" button handler (lines 254-269).
Line 256 re-checks that the model handle exists and `pdf_text` is truthy;
line 260 stores the result only when it is truthy (a non-empty string),
leaving `st.session_state.summary` untouched on any failure.  The function
is total: no outcome raises. -/
def generateSummaryClick (s : SessionState) (hasModel : Bool) (outcome : GenOutcome) :
    SessionState :=
  if hasModel = true ∧ textTruthy s.pdf_text = true then
    match (summarize_with_gemini s.gemini_configured hasModel s.pdf_text outcome).result with
    | some r => if r.isEmpty = true then s else { s with summary := some r }
    | none => s
  else
    s

/-- The "Add Hearing Summary" button handler (lines 314-324).  Line 315
requires both widget values truthy (`None` date or empty summary string is
falsy); on success a fresh dict with both keys is appended at the end;
otherwise a warning is shown and the state is untouched.  Returns the new
state and whether the warning was emitted.  (The defensive re-initialization
at lines 317-318 only fires when the stored value is not a list, which the
typed state rules out.) -/
def addHearingClick (s : SessionState) (d : Option Date) (sm : String) :
    SessionState × Bool :=
  match d with
  | some dv =>
      if sm.isEmpty = true then
        (s, true)
      else
        ({ s with hearings := s.hearings ++ [HEntry.record (some dv) (some sm)] }, false)
  | none => (s, true)

/-- `isinstance(h, dict) and h.get('date')` (line 332): an entry is kept for
display exactly when it is a dict whose `date` key holds a date (a date
object is always truthy; a missing key or `None` is falsy). -/
def isValidHearing : HEntry → Bool
  | HEntry.record (some _) _ => true
  | _ => false

/-- The sort key `lambda x: x['date']` (line 333).  The fallback `0` is
never reached on the filtered list, where the date is always present. -/
def hearingKey : HEntry → Date
  | HEntry.record (some d) _ => d
  | _ => 0

/-- Order on hearing entries induced by the date key. -/
def hearingLE (x y : HEntry) : Prop := hearingKey x ≤ hearingKey y

instance : DecidableRel hearingLE :=
  fun x y => inferInstanceAs (Decidable (hearingKey x ≤ hearingKey y))

instance : IsTotal HEntry hearingLE := ⟨fun x y => Nat.le_total (hearingKey x) (hearingKey y)⟩

instance : IsTrans HEntry hearingLE := ⟨fun _ _ _ h1 h2 => Nat.le_trans h1 h2⟩

/-- `valid_hearings` (line 332). -/
def validHearings (l : List HEntry) : List HEntry :=
  l.filter isValidHearing

/-- `sorted_hearings` (line 333).  Python `sorted` is a stable ascending
sort by the key; we embed it as the stable ascending-by-key insertion
sort. -/
def sortedHearings (l : List HEntry) : List HEntry :=
  List.insertionSort hearingLE (validHearings l)

/-- The "Recorded Hearings" display block (lines 326-342): it reads the
stored list, computes the filtered and sorted view, and renders it; the
list comprehension and `sorted` allocate new lists, so the stored sequence
is returned unchanged alongside the displayed sequence. -/
def renderHearingsView (s : SessionState) : SessionState × List HEntry :=
  (s, sortedHearings s.hearings)

/-- The decision-date pre-fill computed at lines 300-302:
`default_decision_date = case_details.get('judgement_date', None)` and then
`timeline.get('decision_date', default_decision_date)`. -/
def timelineDecisionPrefill (cd : CaseDetails) (tl : Timeline) : Option Date :=
  let default_decision_date := dictGetD cd.judgement_date none
  dictGetD tl.decision_date default_decision_date

/-- Case details with a judgement date (day 7) entered by the user; all
other fields as initialized. -/
def cdJudgement7 : CaseDetails :=
  { initCaseDetails with judgement_date := some (some 7) }

/-- C3 (code_bug): with the judgement date set (day 7) and the timeline
exactly as initialized at line 17 — the user has not set a decision date,
so the `decision_date` key is present holding `None` — the pre-fill
computed at lines 300-302 is `None`, not the judgement date.  Python
`dict.get(key, default)` falls back only when the key is missing, and the
initialization always creates the key, so the judgement-date default can
never fire, contradicting the code comment at line 300 ("Default decision
date to judgement date if available") and the spec. -/
theorem decision_date_default_never_fires :
    dictGetD cdJudgement7.judgement_date none = some 7 ∧
    timelineDecisionPrefill cdJudgement7 initTimeline = none ∧
    timelineDecisionPrefill cdJudgement7 initTimeline ≠ some 7 := by
  refine ⟨rfl, rfl, by decide⟩

/-- C6 (confirmed): with a configured client and a model handle (the only
situation in which the app invokes the summarizer, per the guards at lines
251 and 256), any absent, empty or shorter-than-50-character input makes
`summarize_with_gemini` return the insufficient-input failure — `None`
together with the not-enough-text warning — and no prompt is built or sent
to the model. -/
theorem summarizer_rejects_short_text (text : Option Text) (outcome : GenOutcome)
    (h : (text.getD []).length < 50) :
    summarize_with_gemini true true text outcome =
      { result := none, warnNotConfigured := false, warnShort := true,
        infoTruncated := false, sentPrompt := none } := by
  rw [summarize_with_gemini, if_neg (by simp), if_pos (Or.inr h)]

/-- Concrete check of `summarizer_rejects_short_text` on a two-character
input. -/
theorem summarizer_rejects_short_text_witness :
    ((some ("hi").data : Option Text).getD []).length < 50 ∧
    summarize_with_gemini true true (some ("hi").data) (GenOutcome.ok "s") =
      { result := none, warnNotConfigured := false, warnShort := true,
        infoTruncated := false, sentPrompt := none } :=
  ⟨by decide, summarizer_rejects_short_text (some ("hi").data) (GenOutcome.ok "s") (by decide)⟩

/-- C7 (confirmed): the Add-Hearing handler leaves the stored sequence (and
the whole session state) unchanged and emits the warning when the date is
missing or the summary is empty; when both are present it appends exactly
one record with that date and summary at the end of the sequence and emits
no warning. -/
theorem add_hearing_validation (s : SessionState) (d : Option Date) (sm : String) :
    ((d = none ∨ sm.isEmpty = true) → addHearingClick s d sm = (s, true)) ∧
    (∀ dv, d = some dv → sm.isEmpty = false →
      addHearingClick s d sm =
        ({ s with hearings := s.hearings ++ [HEntry.record (some dv) (some sm)] }, false)) := by
  constructor
  · intro h
    rcases h with h | h
    · subst h; rfl
    · cases d with
      | none => rfl
      | some dv => simp [addHearingClick, h]
  · intro dv hd hs
    subst hd
    simp [addHearingClick, hs]

/-- Concrete check of `add_hearing_validation`: an empty summary is
rejected without a state change, and a real date-summary pair is appended
at the end. -/
theorem add_hearing_validation_witness :
    (("" : String).isEmpty = true) ∧
    addHearingClick default_session_state (some 3) "" = (default_session_state, true) ∧
    (("met" : String).isEmpty = false) ∧
    addHearingClick default_session_state (some 3) "met" =
      ({ default_session_state with hearings := [HEntry.record (some 3) (some "met")] }, false) := by
  refine ⟨rfl, ?_, rfl, ?_⟩
  · exact (add_hearing_validation default_session_state (some 3) "").1 (Or.inr rfl)
  · have h := (add_hearing_validation default_session_state (some 3) "met").2 3 rfl rfl
    simpa using h

/-- C9 (confirmed): when the upload widget becomes empty the on_change
callback resets `pdf_text`, `summary` and `uploaded_file_id` to absent and
leaves every other session field (case details, timeline, hearings, user
key, configuration flag, stored error) unchanged. -/
theorem file_removal_resets_document_state (s : SessionState) (w : Option Nat)
    (h : w = none) :
    (fileUploaderOnChange s w).pdf_text = none ∧
    (fileUploaderOnChange s w).summary = none ∧
    (fileUploaderOnChange s w).uploaded_file_id = none ∧
    (fileUploaderOnChange s w).case_details = s.case_details ∧
    (fileUploaderOnChange s w).timeline = s.timeline ∧
    (fileUploaderOnChange s w).hearings = s.hearings ∧
    (fileUploaderOnChange s w).user_gemini_key = s.user_gemini_key ∧
    (fileUploaderOnChange s w).gemini_configured = s.gemini_configured ∧
    (fileUploaderOnChange s w).gemini_error = s.gemini_error := by
  subst h
  simp [fileUploaderOnChange]

/-- A session state with every document-related field populated and the
other fields away from their defaults, used to exercise the reset. -/
def wRemovalState : SessionState :=
  { default_session_state with
      pdf_text := some ("doc").data, summary := some "sum",
      uploaded_file_id := some 9, gemini_configured := true,
      gemini_error := some "e", user_gemini_key := "k",
      hearings := [HEntry.malformed] }

/-- Concrete check of `file_removal_resets_document_state` on a fully
populated state. -/
theorem file_removal_resets_document_state_witness :
    ((none : Option Nat) = none) ∧
    ((fileUploaderOnChange wRemovalState none).pdf_text = none ∧
     (fileUploaderOnChange wRemovalState none).summary = none ∧
     (fileUploaderOnChange wRemovalState none).uploaded_file_id = none ∧
     (fileUploaderOnChange wRemovalState none).case_details = wRemovalState.case_details ∧
     (fileUploaderOnChange wRemovalState none).timeline = wRemovalState.timeline ∧
     (fileUploaderOnChange wRemovalState none).hearings = wRemovalState.hearings ∧
     (fileUploaderOnChange wRemovalState none).user_gemini_key = wRemovalState.user_gemini_key ∧
     (fileUploaderOnChange wRemovalState none).gemini_configured = wRemovalState.gemini_configured ∧
     (fileUploaderOnChange wRemovalState none).gemini_error = wRemovalState.gemini_error) :=
  ⟨rfl, file_removal_resets_document_state wRemovalState none rfl⟩

/-- C1 (corrected): the gating of text extraction at line 219.  Extraction
is skipped exactly when the uploaded identity matches the stored one AND
`pdf_text` is present; when the identity differs, `summary` is reset to
absent, `pdf_text` becomes the result of a fresh extraction attempt
(absent on failure) and the stored identity is updated; and once an
attempt has produced text, a later pass over the same file makes no
further attempt.  (The claim as stated — same identity alone suffices to
skip — fails after a failed extraction; see the counterexample.) -/
theorem pdf_extraction_gating (s : SessionState) (fid : Nat) (res res2 : Option Text) :
    (s.uploaded_file_id = some fid → s.pdf_text ≠ none →
      processUploadedFile s fid res = (s, false)) ∧
    (s.uploaded_file_id ≠ some fid →
      processUploadedFile s fid res =
        ({ s with pdf_text := res, summary := none, uploaded_file_id := some fid }, true)) ∧
    (res ≠ none →
      (processUploadedFile (processUploadedFile s fid res).1 fid res2).2 = false) := by
  refine ⟨fun h1 h2 => ?_, fun h => ?_, fun hres => ?_⟩
  · rw [processUploadedFile, if_neg]
    intro hc
    rcases hc with hc | hc
    · exact h2 hc
    · exact hc h1.symm
  · rw [processUploadedFile, if_pos (Or.inr fun heq => h heq.symm)]
  · by_cases hc : s.pdf_text = none ∨ some fid ≠ s.uploaded_file_id
    · have h1 : (processUploadedFile s fid res).1 =
          { s with pdf_text := res, summary := none, uploaded_file_id := some fid } := by
        rw [processUploadedFile, if_pos hc]
      rw [h1, processUploadedFile, if_neg]
      intro hd
      rcases hd with hd | hd
      · exact hres hd
      · exact hd rfl
    · have h1 : (processUploadedFile s fid res).1 = s := by
        rw [processUploadedFile, if_neg hc]
      rw [h1, processUploadedFile, if_neg hc]

/-- The session state after a pass in which extraction of the file with
identity 5 failed: the identity was stored (line 225) but `pdf_text` is
absent (line 223 stored the `None` returned by the failed extraction). -/
def failedExtractionState : SessionState :=
  { default_session_state with uploaded_file_id := some 5 }

/-- C1 counterexample: in the reachable state left by a failed extraction
of file 5, a further render pass with the very same file (identity 5,
equal to the stored `uploaded_file_id`) re-runs extraction, because the
condition at line 219 also fires whenever `pdf_text` is `None`.  This
refutes the claim that equal identity alone prevents re-running, and with
it the single-attempt-per-identity-change reading. -/
theorem pdf_extraction_rerun_on_failed_text :
    failedExtractionState.uploaded_file_id = some 5 ∧
    (processUploadedFile failedExtractionState 5 (some ("judgement text").data)).2 = true :=
  ⟨rfl, rfl⟩

/-- The session state after a successful extraction of file 5. -/
def wExtractedState : SessionState :=
  { default_session_state with
      uploaded_file_id := some 5, pdf_text := some ("old").data }

/-- Concrete check of `pdf_extraction_gating`: a state holding extracted
text for file 5 is left untouched by a pass over file 5, and after a pass
over a new file whose extraction succeeded no further attempt is made. -/
theorem pdf_extraction_gating_witness :
    (wExtractedState.uploaded_file_id = some 5) ∧
    (wExtractedState.pdf_text ≠ none) ∧
    processUploadedFile wExtractedState 5 (some ("new").data) = (wExtractedState, false) ∧
    (processUploadedFile
        (processUploadedFile default_session_state 6 (some ("new").data)).1
        6 (some ("new").data)).2 = false := by
  refine ⟨rfl, by decide, ?_, ?_⟩
  · exact (pdf_extraction_gating wExtractedState 5 (some ("new").data)
      (some ("new").data)).1 rfl (by decide)
  · exact (pdf_extraction_gating default_session_state 6 (some ("new").data)
      (some ("new").data)).2.2 (by decide)

/-- C2 (confirmed): once a configuration failure has stored an error with
the configured flag down, every subsequent render pass — with or without a
key, whatever the outcome parameter — leaves the stored error message in
place and makes no line-69 configuration attempt; and every render pass
with a key available, the flag down and no stored error does make the
configuration attempt.  (The one-pass invariant iterates: the error
persists across every later pass, in particular until a new key is
supplied.) -/
theorem gemini_error_persistence_and_retry (s : SessionState) (hasKey : Bool)
    (outcome : ConfigOutcome) :
    (∀ e, s.gemini_error = some e → s.gemini_configured = false →
      (configRender s hasKey outcome).1.gemini_error = some e ∧
      (configRender s hasKey outcome).2.1 = false) ∧
    (hasKey = true → s.gemini_configured = false → s.gemini_error = none →
      (configRender s hasKey outcome).2.1 = true) := by
  constructor
  · intro e he hc
    cases hasKey with
    | false => simp [configRender, he, hc]
    | true => simp [configRender, he, hc]
  · intro hk hc he
    subst hk
    cases outcome with
    | ok => simp [configRender, hc, he]
    | fail m => simp [configRender, hc, he]

/-- A session state recording a prior configuration failure. -/
def failedConfigState : SessionState :=
  { default_session_state with gemini_error := some "bad key" }

/-- Concrete check of `gemini_error_persistence_and_retry`: the stored
error survives a pass in which a (new) key is available and the outcome
would have been success, and from the pristine state a pass with a key
makes the attempt. -/
theorem gemini_error_persistence_and_retry_witness :
    (failedConfigState.gemini_error = some "bad key") ∧
    (failedConfigState.gemini_configured = false) ∧
    ((configRender failedConfigState true ConfigOutcome.ok).1.gemini_error = some "bad key") ∧
    ((configRender failedConfigState true ConfigOutcome.ok).2.1 = false) ∧
    ((configRender default_session_state true ConfigOutcome.ok).2.1 = true) := by
  refine ⟨rfl, rfl, ?_, ?_, ?_⟩
  · exact ((gemini_error_persistence_and_retry failedConfigState true
      ConfigOutcome.ok).1 "bad key" rfl rfl).1
  · exact ((gemini_error_persistence_and_retry failedConfigState true
      ConfigOutcome.ok).1 "bad key" rfl rfl).2
  · exact (gemini_error_persistence_and_retry default_session_state true
      ConfigOutcome.ok).2 rfl rfl rfl

/-- Helper: every failing invocation of the summarizer returns `None`. The
unconfigured rejection (line 138), the short-input rejection (line 143),
a blocked response with no parts (line 199) and a caught exception
(line 208) all return `None`. -/
theorem summarize_fail_result (configured hasModel : Bool) (text : Option Text)
    (outcome : GenOutcome)
    (h : configured = false ∨ hasModel = false ∨ textTruthy text = false ∨
         (text.getD []).length < 50 ∨ (∃ r, outcome = GenOutcome.blocked r) ∨
         (∃ m, outcome = GenOutcome.err m)) :
    (summarize_with_gemini configured hasModel text outcome).result = none := by
  rw [summarize_with_gemini]
  split_ifs with h1 h2
  · rfl
  · rfl
  · push_neg at h1 h2
    rcases h with h | h | h | h | ⟨r, rfl⟩ | ⟨m, rfl⟩
    · exact absurd h h1.1
    · exact absurd h h1.2
    · exact absurd h h2.1
    · omega
    · rfl
    · rfl

/-- C8 (confirmed): every failing summarization attempt — client not
configured, model handle missing, insufficient input, safety block, or a
caught remote exception — leaves the whole session state, in particular
the stored `summary`, unchanged: line 260 stores a result only when one
was returned.  The handler is a total function of the call outcome, which
embeds the fact that the except-branches at lines 201-208 catch every
exception of the remote call rather than letting it escape. -/
theorem failed_summary_leaves_state (s : SessionState) (hasModel : Bool)
    (outcome : GenOutcome)
    (h : s.gemini_configured = false ∨ hasModel = false ∨ textTruthy s.pdf_text = false ∨
         (s.pdf_text.getD []).length < 50 ∨ (∃ r, outcome = GenOutcome.blocked r) ∨
         (∃ m, outcome = GenOutcome.err m)) :
    generateSummaryClick s hasModel outcome = s := by
  rw [generateSummaryClick]
  split_ifs with h1
  · rw [summarize_fail_result s.gemini_configured hasModel s.pdf_text outcome h]
  · rfl

/-- A state with text extracted and the client configured, in which only
the remote call itself can fail. -/
def wConfiguredState : SessionState :=
  { default_session_state with
      gemini_configured := true,
      pdf_text := some ("a fifty character long extracted judgement text....").data,
      summary := some "kept" }

/-- Concrete check of `failed_summary_leaves_state`: an unconfigured click
and a configured click whose remote call raised both leave the state — and
the previously stored summary — untouched. -/
theorem failed_summary_leaves_state_witness :
    (default_session_state.gemini_configured = false) ∧
    generateSummaryClick default_session_state true (GenOutcome.ok "x") =
      default_session_state ∧
    generateSummaryClick wConfiguredState true (GenOutcome.err "boom") = wConfiguredState := by
  refine ⟨rfl, ?_, ?_⟩
  · exact failed_summary_leaves_state default_session_state true (GenOutcome.ok "x")
      (Or.inl rfl)
  · exact failed_summary_leaves_state wConfiguredState true (GenOutcome.err "boom")
      (Or.inr (Or.inr (Or.inr (Or.inr (Or.inr ⟨"boom", rfl⟩)))))

/-- C5 (confirmed): whenever the summarizer actually builds a prompt (a
configured client with a model handle and an input of at least 50
characters, the only situation in which lines 145-167 run), the text
embedded between the fixed template head and tail is exactly
`text[:100000]`: for input longer than 100,000 characters that is exactly
the first 100,000 characters and the truncation info banner is emitted;
for input of at most 100,000 characters it is the whole input and no
banner is emitted. -/
theorem summarizer_truncation (t : Text) (outcome : GenOutcome) (h50 : 50 ≤ t.length) :
    (max_chars < t.length →
      (summarize_with_gemini true true (some t) outcome).sentPrompt =
        some (promptHead ++ t.take max_chars ++ promptTail) ∧
      (summarize_with_gemini true true (some t) outcome).infoTruncated = true) ∧
    (t.length ≤ max_chars →
      (summarize_with_gemini true true (some t) outcome).sentPrompt =
        some (promptHead ++ t ++ promptTail) ∧
      (summarize_with_gemini true true (some t) outcome).infoTruncated = false) := by
  have hmain : (summarize_with_gemini true true (some t) outcome).sentPrompt =
        some (promptHead ++ t.take max_chars ++ promptTail) ∧
      (summarize_with_gemini true true (some t) outcome).infoTruncated =
        decide (max_chars < t.length) := by
    have hne : ¬(textTruthy (some t) = false ∨ ((some t : Option Text).getD []).length < 50) := by
      push_neg
      constructor
      · cases t with
        | nil => simp at h50
        | cons c cs => simp [textTruthy]
      · simpa using h50
    rw [summarize_with_gemini, if_neg (by simp), if_neg hne]
    cases outcome <;> exact ⟨rfl, rfl⟩
  refine ⟨fun hgt => ⟨hmain.1, ?_⟩, fun hle => ⟨?_, ?_⟩⟩
  · rw [hmain.2]
    exact decide_eq_true hgt
  · rw [hmain.1, List.take_of_length_le hle]
  · rw [hmain.2]
    exact decide_eq_false (Nat.not_lt.mpr hle)

/-- A 60-character document text. -/
def wLongText : Text :=
  ("this judgement text is exactly sixty characters characters..").data

/-- Concrete check of `summarizer_truncation` on a 60-character input (it
satisfies the length precondition; both conclusions are obtained from the
theorem). -/
theorem summarizer_truncation_witness :
    50 ≤ wLongText.length ∧
    ((max_chars < wLongText.length →
      (summarize_with_gemini true true (some wLongText) (GenOutcome.ok "s")).sentPrompt =
        some (promptHead ++ wLongText.take max_chars ++ promptTail) ∧
      (summarize_with_gemini true true (some wLongText) (GenOutcome.ok "s")).infoTruncated =
        true) ∧
    (wLongText.length ≤ max_chars →
      (summarize_with_gemini true true (some wLongText) (GenOutcome.ok "s")).sentPrompt =
        some (promptHead ++ wLongText ++ promptTail) ∧
      (summarize_with_gemini true true (some wLongText) (GenOutcome.ok "s")).infoTruncated =
        false)) :=
  ⟨by decide, summarizer_truncation wLongText (GenOutcome.ok "s") (by decide)⟩

/-- C4 (corrected): the displayed hearing list is a permutation of exactly
the stored records with a well-formed date, it is arranged in ascending —
non-decreasing, not strict — order by date, and producing the display
leaves the stored sequence unchanged.  (Strict ascending order fails as
soon as two records share a date; see the counterexample.) -/
theorem hearing_display_sorted_and_complete (s : SessionState) :
    (renderHearingsView s).1 = s ∧
    List.Perm (renderHearingsView s).2 (validHearings s.hearings) ∧
    List.Sorted hearingLE (renderHearingsView s).2 := by
  refine ⟨rfl, ?_, ?_⟩
  · exact List.perm_insertionSort hearingLE (validHearings s.hearings)
  · exact List.sorted_insertionSort hearingLE (validHearings s.hearings)

/-- Two stored hearings on the same date (day 3). -/
def hl0 : List HEntry :=
  [HEntry.record (some 3) (some "a"), HEntry.record (some 3) (some "b")]

/-- C4 counterexample: with two records on the same date both are displayed
(both have well-formed dates), so the displayed list is NOT in strict
ascending order by date — adjacent displayed records have equal dates. -/
theorem hearing_display_not_strict :
    sortedHearings hl0 = hl0 ∧
    ¬ List.Pairwise (fun x y => hearingKey x < hearingKey y) (sortedHearings hl0) := by
  refine ⟨rfl, by decide⟩

/-- C10 (confirmed): the display sort is stable.  For any two valid records
with equal dates appearing in the stored sequence in a given order, they
appear in the displayed list in that same order. -/
theorem hearing_sort_stable (l : List HEntry) (a b : HEntry)
    (ha : isValidHearing a = true) (hb : isValidHearing b = true)
    (hk : hearingKey a = hearingKey b) (hab : List.Sublist [a, b] l) :
    List.Sublist [a, b] (sortedHearings l) := by
  have h1 : List.Sublist [a, b] (validHearings l) := by
    have h2 := List.Sublist.filter isValidHearing hab
    rwa [show List.filter isValidHearing [a, b] = [a, b] by simp [ha, hb]] at h2
  show List.Sublist [a, b] (List.insertionSort hearingLE (validHearings l))
  exact List.pair_sublist_insertionSort (show hearingLE a b from le_of_eq hk) h1

/-- First of two same-date hearings. -/
def stA : HEntry := HEntry.record (some 3) (some "x")

/-- Second of two same-date hearings. -/
def stB : HEntry := HEntry.record (some 3) (some "y")

/-- A stored sequence with a malformed entry followed by the two same-date
hearings. -/
def stL : List HEntry := [HEntry.malformed, stA, stB]

/-- Concrete check of `hearing_sort_stable`: the two same-date records keep
their stored relative order in the display. -/
theorem hearing_sort_stable_witness :
    (isValidHearing stA = true) ∧ (isValidHearing stB = true) ∧
    (hearingKey stA = hearingKey stB) ∧
    List.Sublist [stA, stB] stL ∧
    List.Sublist [stA, stB] (sortedHearings stL) := by
  refine ⟨rfl, rfl, rfl, ?_, ?_⟩
  · exact List.Sublist.cons _ (List.Sublist.refl _)
  · exact hearing_sort_stable stL stA stB rfl rfl rfl
      (List.Sublist.cons _ (List.Sublist.refl _))

end App
